import Mathlib

/-
Verification of the Flight Data Management backend (server.js + the
PostgreSQL schema shipped in DATABASE_SETUP.md).

The relational store is embedded as an explicit record of table contents.
Each SQL statement issued by the POST /api/sorties handler becomes a Lean
function on that record which either returns the updated store or a
database error (constraint violations, casts) / JavaScript TypeError
(dereference of an undefined payload section).  The BEGIN/COMMIT/ROLLBACK
bracket of the handler becomes the top-level `postSorties`: the transaction
body threads the store through explicit matches, a successful body commits the
final store, and the catch branch publishes the original store (ROLLBACK).

Timestamps are modelled at one-minute granularity (integers), so the
generated column flight_duration_minutes = EXTRACT(EPOCH FROM (landing -
takeoff))/60 is landing - takeoff.  DECIMAL columns are modelled as Rat.
Only columns read or written by the modelled operations are kept.
-/

/- ======================= table rows ======================= -/

/-- Row of the aircraft table (columns used by the modelled operations). -/
structure AircraftRow where
  aircraft_id : Nat
  tail_number : String
  total_flight_hours : Rat
deriving DecidableEq

/-- Row of the sorties table.  takeoff_time / landing_time are minutes. -/
structure SortieRow where
  sortie_id : Nat
  sortie_number : String
  mission_type : String
  aircraft_id : Nat
  departure_location_id : Nat
  arrival_location_id : Nat
  takeoff_time : Int
  landing_time : Int
  sortie_status : String
  comments : Option String
  created_by : Nat
deriving DecidableEq

/-- The generated column flight_duration_minutes:
EXTRACT(EPOCH FROM (landing_time - takeoff_time))/60 at minute granularity. -/
def flightDurationMinutes (s : SortieRow) : Int :=
  s.landing_time - s.takeoff_time

/-- Row of sortie_crew. -/
structure CrewRow where
  sortie_id : Nat
  personnel_id : Nat
  crew_position : String
  crew_position_other : Option String
  remarks : Option String
deriving DecidableEq

/-- Row of sortie_passengers. -/
structure PassengerRow where
  sortie_id : Nat
  passenger_type : String
  onload_count : Nat
  offload_count : Nat
  notes : Option String
deriving DecidableEq

/-- Row of sortie_cargo. -/
structure CargoRow where
  sortie_id : Nat
  onload_weight : Rat
  offload_weight : Rat
  cargo_description : Option String
  hazmat_onboard : Bool
  special_handling : Option String
deriving DecidableEq

/-- The relational store.  locations / personnel / users are kept as the
lists of existing primary keys (only foreign-key checks read them). -/
structure Store where
  aircraft : List AircraftRow
  locations : List Nat
  personnel : List Nat
  users : List Nat
  sorties : List SortieRow
  sortie_crew : List CrewRow
  sortie_passengers : List PassengerRow
  sortie_cargo : List CargoRow
  next_sortie_id : Nat
deriving DecidableEq

/-- Errors surfaced by a statement: database errors plus the JavaScript
TypeError thrown when the handler dereferences an undefined payload
section.  All of them are caught by the handler's catch branch. -/
inductive Err where
  | jsTypeError (msg : String)
  | checkViolation (msg : String)
  | uniqueViolation (msg : String)
  | fkViolation (msg : String)
  | invalidCast (msg : String)
deriving DecidableEq

/-- The JSON body sent back by POST /api/sorties. -/
inductive Resp where
  | created (sortieId : Nat) (sortieNumber : String)
  | failed (err : Err)
deriving DecidableEq

/- ================== enum CHECK constraints ================== -/

def missionTypes : List String := ["CASEVAC", "PR", "Enabling", "Training", "Lift"]

def sortieStatusValues : List String :=
  ["Planned", "In-Flight", "Completed", "Cancelled", "Aborted"]

def crewPositionValues : List String := ["PIC", "SIC", "O/I", "Other"]

def passengerTypeValues : List String :=
  ["Military", "Civilian", "Contractor", "Partner Forces", "Other"]

/- ================== sortie number generation ================== -/

/-- LIKE 'S-' || year || '-%' : the number starts with the pattern text. -/
def likeYear (year num : String) : Bool :=
  let pat := ("S-" ++ year ++ "-").toList
  num.toList.take pat.length == pat

/-- SUBSTRING(sortie_number FROM 8): the characters after the first 7. -/
def seqSuffix (num : String) : String :=
  String.mk (num.toList.drop 7)

/-- One decimal digit, or none. -/
def digitVal? (c : Char) : Option Nat :=
  if '0' ≤ c ∧ c ≤ '9' then some (c.toNat - '0'.toNat) else none

/-- CAST(text AS INTEGER) for the digit strings this schema produces:
fails (none) on the empty string or any non-digit character. -/
def parseNat? (s : String) : Option Nat :=
  match s.toList with
  | [] => none
  | cs => cs.foldlM (fun a c => (digitVal? c).map (fun d => a * 10 + d)) 0

/-- Postgres LPAD(s, n, c): truncates to the first n characters when s is
already at least n long, otherwise pads on the left with c. -/
def lpad (s : String) (n : Nat) (c : Char) : String :=
  if n ≤ s.length then String.mk (s.toList.take n)
  else String.mk (List.replicate (n - s.length) c) ++ s

/-- MAX(CAST(SUBSTRING(sortie_number FROM 8) AS INTEGER)) over a row list,
accumulator style; a failing cast aborts the statement. -/
def maxSeqAux (acc : Nat) : List SortieRow → Except Err Nat
  | [] => .ok acc
  | s :: rest =>
    match parseNat? (seqSuffix s.sortie_number) with
    | some n => maxSeqAux (max acc n) rest
    | none => .error (.invalidCast s.sortie_number)

/-- generate_sortie_number() from the schema: COALESCE(MAX(...), 0) + 1
over the sorties whose number matches 'S-<year>-%', left-padded to 4
digits and prefixed with 'S-<year>-'. -/
def generate_sortie_number (year : String) (sorties : List SortieRow) : Except Err String :=
  match maxSeqAux 0 (sorties.filter (fun s => likeYear year s.sortie_number)) with
  | .error e => .error e
  | .ok m => .ok ("S-" ++ year ++ "-" ++ lpad (toString (m + 1)) 4 '0')

/-- The claim's reading of the maximum: the largest parsed suffix among the
sorties numbered for the year (0 when there are none). -/
def claimMaxSeq (year : String) (sorties : List SortieRow) : Nat :=
  ((sorties.filter (fun s => likeYear year s.sortie_number)).filterMap
    (fun s => parseNat? (seqSuffix s.sortie_number))).foldr max 0

/- ================== client payload ================== -/

/-- One of the pic/sic/oi crew slots; name holds the personnel id the
client form puts in the select (none models an absent or empty value,
which the handler's truthiness guard skips). -/
structure CrewSlot where
  name : Option Nat
  remarks : Option String
deriving DecidableEq

/-- An entry of the additional-crew list. -/
structure AdditionalCrew where
  name : Option Nat
  position : Option String
  remarks : Option String
deriving DecidableEq

/-- The crew section of the payload. -/
structure CrewSection where
  pic : Option CrewSlot
  sic : Option CrewSlot
  oi : Option CrewSlot
  additional : Option (List AdditionalCrew)
deriving DecidableEq

/-- One passenger-category object. -/
structure PassengerEntry where
  onload : Option Nat
  offload : Option Nat
  notes : Option String
deriving DecidableEq

/-- The passengers section: any subset of the five category keys. -/
structure PassengerSection where
  military : Option PassengerEntry
  civilian : Option PassengerEntry
  contractor : Option PassengerEntry
  partner : Option PassengerEntry
  other : Option PassengerEntry
deriving DecidableEq

/-- The cargo section. -/
structure CargoSection where
  onloadWeight : Option Rat
  offloadWeight : Option Rat
  description : Option String
  hazmat : Option Bool
  specialHandling : Option String
deriving DecidableEq

/-- The sortie section.  tailNumber carries the aircraft_id: the client
form stores aircraft_id as the value of the tail-number select. -/
structure SortieSection where
  missionType : String
  tailNumber : Nat
  depLocation : Nat
  arrLocation : Nat
  takeoffTime : Int
  landingTime : Int
  comments : Option String
deriving DecidableEq

/-- req.body: each top-level section may be absent (undefined). -/
structure Payload where
  sortie : Option SortieSection
  crew : Option CrewSection
  passengers : Option PassengerSection
  cargo : Option CargoSection
deriving DecidableEq

/- ================== INSERT statements ================== -/

/-- The sortie row built by the handler's INSERT: status is the literal
'Completed', created_by the hard-coded default user id 1. -/
def sortieRowOf (id : Nat) (num : String) (s : SortieSection) : SortieRow :=
  { sortie_id := id
    sortie_number := num
    mission_type := s.missionType
    aircraft_id := s.tailNumber
    departure_location_id := s.depLocation
    arrival_location_id := s.arrLocation
    takeoff_time := s.takeoffTime
    landing_time := s.landingTime
    sortie_status := "Completed"
    comments := s.comments
    created_by := 1 }

/-- INSERT INTO sorties ... RETURNING sortie_id, with the table's CHECK,
UNIQUE and foreign-key constraints checked on the inserted row's fields
(its status is the literal 'Completed', its created_by the constant 1). -/
def insertSortie (db : Store) (num : String) (s : SortieSection) :
    Except Err (Store × Nat) :=
  if ¬ (s.takeoffTime < s.landingTime) then .error (.checkViolation "valid_flight_times")
  else if s.missionType ∉ missionTypes then .error (.checkViolation "sorties.mission_type")
  else if "Completed" ∉ sortieStatusValues then .error (.checkViolation "sorties.sortie_status")
  else if ∃ x ∈ db.sorties, x.sortie_number = num then
    .error (.uniqueViolation "sorties.sortie_number")
  else if ¬ ∃ a ∈ db.aircraft, a.aircraft_id = s.tailNumber then
    .error (.fkViolation "sorties.aircraft_id")
  else if s.depLocation ∉ db.locations then
    .error (.fkViolation "sorties.departure_location_id")
  else if s.arrLocation ∉ db.locations then
    .error (.fkViolation "sorties.arrival_location_id")
  else if (1 : Nat) ∉ db.users then .error (.fkViolation "sorties.created_by")
  else
    .ok ({ db with
           sorties := db.sorties ++ [sortieRowOf db.next_sortie_id num s]
           next_sortie_id := db.next_sortie_id + 1 },
         db.next_sortie_id)

/-- INSERT INTO sortie_crew with its CHECK, foreign-key and
UNIQUE(sortie_id, personnel_id) constraints. -/
def insertCrew (db : Store) (r : CrewRow) : Except Err Store :=
  if r.crew_position ∉ crewPositionValues then
    .error (.checkViolation "sortie_crew.crew_position")
  else if r.crew_position = "Other" ∧ r.crew_position_other = none then
    .error (.checkViolation "sortie_crew.crew_position_other")
  else if ¬ ∃ s ∈ db.sorties, s.sortie_id = r.sortie_id then
    .error (.fkViolation "sortie_crew.sortie_id")
  else if r.personnel_id ∉ db.personnel then
    .error (.fkViolation "sortie_crew.personnel_id")
  else if ∃ x ∈ db.sortie_crew, x.sortie_id = r.sortie_id ∧ x.personnel_id = r.personnel_id then
    .error (.uniqueViolation "sortie_crew.sortie_id_personnel_id")
  else .ok { db with sortie_crew := db.sortie_crew ++ [r] }

/-- INSERT INTO sortie_passengers with its CHECK, foreign-key and
UNIQUE(sortie_id, passenger_type) constraints (counts are Nat, so the
nonnegativity CHECKs hold by type). -/
def insertPassenger (db : Store) (r : PassengerRow) : Except Err Store :=
  if r.passenger_type ∉ passengerTypeValues then
    .error (.checkViolation "sortie_passengers.passenger_type")
  else if ¬ ∃ s ∈ db.sorties, s.sortie_id = r.sortie_id then
    .error (.fkViolation "sortie_passengers.sortie_id")
  else if ∃ x ∈ db.sortie_passengers,
      x.sortie_id = r.sortie_id ∧ x.passenger_type = r.passenger_type then
    .error (.uniqueViolation "sortie_passengers.sortie_id_passenger_type")
  else .ok { db with sortie_passengers := db.sortie_passengers ++ [r] }

/-- INSERT INTO sortie_cargo with its CHECK and foreign-key constraints. -/
def insertCargo (db : Store) (r : CargoRow) : Except Err Store :=
  if ¬ (0 ≤ r.onload_weight) then .error (.checkViolation "sortie_cargo.onload_weight")
  else if ¬ (0 ≤ r.offload_weight) then .error (.checkViolation "sortie_cargo.offload_weight")
  else if ¬ ∃ s ∈ db.sorties, s.sortie_id = r.sortie_id then
    .error (.fkViolation "sortie_cargo.sortie_id")
  else .ok { db with sortie_cargo := db.sortie_cargo ++ [r] }

/- ================== the creation handler ================== -/

/-- The crew row inserted for a fixed slot (PIC / SIC / O-I), produced only
when the slot is present and its name truthy, as in the handler's
`crew.pic && crew.pic.name` guards. -/
def slotRow (sid : Nat) (pos : String) : Option CrewSlot → List CrewRow
  | some sl =>
    match sl.name with
    | some pid => [{ sortie_id := sid, personnel_id := pid, crew_position := pos,
                     crew_position_other := none, remarks := sl.remarks }]
    | none => []
  | none => []

/-- The rows inserted by the additional-crew loop: one 'Other' row per
entry with a truthy name, keeping the supplied free-text position. -/
def additionalRows (sid : Nat) (l : List AdditionalCrew) : List CrewRow :=
  l.filterMap (fun m => m.name.map (fun pid =>
    { sortie_id := sid, personnel_id := pid, crew_position := "Other",
      crew_position_other := m.position, remarks := m.remarks }))

/-- All crew rows the handler inserts, in the handler's order: PIC, SIC,
O/I, then the additional list (guarded by `additional && length > 0`). -/
def crewRowsOf (sid : Nat) (c : CrewSection) : List CrewRow :=
  slotRow sid "PIC" c.pic ++ slotRow sid "SIC" c.sic ++ slotRow sid "O/I" c.oi ++
  (match c.additional with
   | some l => if 0 < l.length then additionalRows sid l else []
   | none => [])

/-- The personnel ids the payload names across all crew slots, with the
same truthiness guards as the handler. -/
def slotIds : Option CrewSlot → List Nat
  | some sl => sl.name.toList
  | none => []

/-- All personnel ids named by the crew section, in insert order. -/
def crewNamedIds (c : CrewSection) : List Nat :=
  slotIds c.pic ++ slotIds c.sic ++ slotIds c.oi ++
  (match c.additional with
   | some l => if 0 < l.length then l.filterMap (fun m => m.name) else []
   | none => [])

/-- The passenger row inserted for one present category
(`passengers[type]` truthy), with the handler's `|| 0` defaults. -/
def passengerEntryRow (sid : Nat) (ptype : String) : Option PassengerEntry → List PassengerRow
  | some pe => [{ sortie_id := sid, passenger_type := ptype,
                  onload_count := pe.onload.getD 0, offload_count := pe.offload.getD 0,
                  notes := pe.notes }]
  | none => []

/-- All passenger rows, in the handler's passengerTypes order. -/
def passengerRowsOf (sid : Nat) (pp : PassengerSection) : List PassengerRow :=
  passengerEntryRow sid "Military" pp.military ++
  passengerEntryRow sid "Civilian" pp.civilian ++
  passengerEntryRow sid "Contractor" pp.contractor ++
  passengerEntryRow sid "Partner Forces" pp.partner ++
  passengerEntryRow sid "Other" pp.other

/-- The single cargo row the handler inserts, with its `|| 0` / `|| false`
defaults for missing fields. -/
def cargoRowOf (sid : Nat) (cg : CargoSection) : CargoRow :=
  { sortie_id := sid
    onload_weight := cg.onloadWeight.getD 0
    offload_weight := cg.offloadWeight.getD 0
    cargo_description := cg.description
    hazmat_onboard := cg.hazmat.getD false
    special_handling := cg.specialHandling }

/-- Sequential crew inserts; the first error aborts the rest. -/
def insertCrewList (db : Store) : List CrewRow → Except Err Store
  | [] => .ok db
  | r :: rest =>
    match insertCrew db r with
    | .error e => .error e
    | .ok db2 => insertCrewList db2 rest

/-- Sequential passenger inserts; the first error aborts the rest. -/
def insertPassengerList (db : Store) : List PassengerRow → Except Err Store
  | [] => .ok db
  | r :: rest =>
    match insertPassenger db r with
    | .error e => .error e
    | .ok db2 => insertPassengerList db2 rest

/-- The transaction body of POST /api/sorties after the sortie number has
been obtained: insert the sortie (dereferencing the sortie section), the
crew rows (dereferencing crew), the passenger rows (dereferencing
passengers), and the cargo row (dereferencing cargo), in the handler's
statement order.  Any error propagates to the catch branch. -/
def createSortieRest (num : String) (b : Payload) (db0 : Store) :
    Except Err (Store × Nat) :=
  match b.sortie with
  | none => .error (.jsTypeError "sortie")
  | some s =>
    match insertSortie db0 num s with
    | .error e => .error e
    | .ok (db1, sid) =>
      match b.crew with
      | none => .error (.jsTypeError "crew")
      | some c =>
        match insertCrewList db1 (crewRowsOf sid c) with
        | .error e => .error e
        | .ok db2 =>
          match b.passengers with
          | none => .error (.jsTypeError "passengers")
          | some pp =>
            match insertPassengerList db2 (passengerRowsOf sid pp) with
            | .error e => .error e
            | .ok db3 =>
              match b.cargo with
              | none => .error (.jsTypeError "cargo")
              | some cg =>
                match insertCargo db3 (cargoRowOf sid cg) with
                | .error e => .error e
                | .ok db4 => .ok (db4, sid)

/-- The whole transaction body: SELECT generate_sortie_number(), then the
inserts. -/
def createSortieTxn (year : Nat) (b : Payload) (db : Store) :
    Except Err (Store × Nat × String) :=
  match generate_sortie_number (toString year) db.sorties with
  | .error e => .error e
  | .ok num =>
    match createSortieRest num b db with
    | .error e => .error e
    | .ok (db2, sid) => .ok (db2, sid, num)

/-- POST /api/sorties: BEGIN, run the body, COMMIT the resulting store and
answer 201 {success, sortieId, sortieNumber}; on any error ROLLBACK (the
original store stays published) and answer 500 {success: false, ...}. -/
def postSorties (year : Nat) (b : Payload) (db : Store) : Store × Resp :=
  match createSortieTxn year b db with
  | .ok (db2, sid, num) => (db2, .created sid num)
  | .error e => (db, .failed e)

/- ================== UPDATE + the flight-hours trigger ================== -/

/-- update_aircraft_flight_hours(): fired AFTER UPDATE for a row whose new
status is 'Completed'; it adds NEW.flight_duration_minutes / 60.0 to the
owning aircraft only when the old status was not already 'Completed'. -/
def update_aircraft_flight_hours (oldStatus : String) (newRow : SortieRow)
    (db : Store) : Store :=
  if newRow.sortie_status = "Completed" ∧ oldStatus ≠ "Completed" then
    { db with aircraft := db.aircraft.map (fun a =>
        if a.aircraft_id = newRow.aircraft_id then
          { a with total_flight_hours :=
              a.total_flight_hours + (flightDurationMinutes newRow : Rat) / 60 }
        else a) }
  else db

/-- UPDATE sorties SET sortie_status = newStatus WHERE sortie_id = sid,
with the table's CHECK constraints re-verified for the affected rows and
the AFTER UPDATE trigger trg_update_aircraft_hours applied per row.
(There is no AFTER INSERT trigger: creation never runs this.) -/
def updateSortieStatus (sid : Nat) (newStatus : String) (db : Store) :
    Except Err Store :=
  if newStatus ∉ sortieStatusValues then .error (.checkViolation "sorties.sortie_status")
  else
    let affected := db.sorties.filter (fun s => s.sortie_id == sid)
    if ∃ s ∈ affected, ¬ (s.takeoff_time < s.landing_time) then
      .error (.checkViolation "valid_flight_times")
    else
      let db1 := { db with sorties := db.sorties.map (fun s =>
        if s.sortie_id = sid then { s with sortie_status := newStatus } else s) }
      .ok (affected.foldl (fun acc old =>
        update_aircraft_flight_hours old.sortie_status
          { old with sortie_status := newStatus } acc) db1)

/- ================== Express routing ================== -/

/-- Tags for the registered routes of server.js, in source order. -/
inductive RouteTag where
  | aircraftList | locationList | personnelList
  | sortieCreate | sortieList | sortieById | sortieSearch
  | reportDaily | reportAircraftUtilization | reportPassengerMovement
  | health | root
deriving DecidableEq

/-- The route table in registration order: method, path pattern, tag. -/
def routeTable : List (String × String × RouteTag) :=
  [("GET", "/api/aircraft", .aircraftList),
   ("GET", "/api/locations", .locationList),
   ("GET", "/api/personnel", .personnelList),
   ("POST", "/api/sorties", .sortieCreate),
   ("GET", "/api/sorties", .sortieList),
   ("GET", "/api/sorties/:id", .sortieById),
   ("GET", "/api/sorties/search", .sortieSearch),
   ("GET", "/api/reports/daily", .reportDaily),
   ("GET", "/api/reports/aircraft-utilization", .reportAircraftUtilization),
   ("GET", "/api/reports/passenger-movement", .reportPassengerMovement),
   ("GET", "/health", .health),
   ("GET", "/", .root)]

/-- Split a character list on '/' into path segments. -/
def splitSegsAux : List Char → List (List Char)
  | [] => [[]]
  | c :: rest =>
    let r := splitSegsAux rest
    if c = '/' then [] :: r
    else
      match r with
      | s :: tail => (c :: s) :: tail
      | [] => [[c]]

/-- A pattern segment starting with ':' is an Express route parameter. -/
def isParamSeg : List Char → Bool
  | ':' :: _ => true
  | _ => false

/-- One pattern segment against one path segment: a parameter matches any
nonempty segment, a literal must be equal. -/
def segMatches (pat seg : List Char) : Bool :=
  if isParamSeg pat then ¬ seg.isEmpty else pat == seg

/-- Segment lists match pointwise and have equal length. -/
def segsMatch : List (List Char) → List (List Char) → Bool
  | [], [] => true
  | p :: ps, s :: ss => segMatches p s && segsMatch ps ss
  | _, _ => false

/-- Express path matching of one registered pattern against a request path. -/
def pathMatches (pattern path : String) : Bool :=
  segsMatch (splitSegsAux pattern.toList) (splitSegsAux path.toList)

/-- The req.params bindings the matched pattern extracts from the path. -/
def paramBindings : List (List Char) → List (List Char) → List (String × String)
  | p :: ps, s :: ss =>
    (if isParamSeg p then [(String.mk (p.drop 1), String.mk s)] else []) ++
      paramBindings ps ss
  | _, _ => []

/-- Express dispatch: the first registered route whose method and pattern
match handles the request. -/
def dispatch (method path : String) : Option (RouteTag × List (String × String)) :=
  (routeTable.find? (fun r => r.1 == method && pathMatches r.2.1 path)).map
    (fun r => (r.2.2, paramBindings (splitSegsAux r.2.1.toList) (splitSegsAux path.toList)))

/-- The GET /api/sorties/:id handler's main query: WHERE sortie_id = $1
with the raw id string; a non-integer id fails the integer cast, so it can
never match a sortie row. -/
def getSortieById (idStr : String) (db : Store) : Except Err (Option SortieRow) :=
  match parseNat? idStr with
  | none => .error (.invalidCast idStr)
  | some i => .ok (db.sorties.find? (fun s => s.sortie_id == i))

/-- The pattern segments of the literal route /api/sorties/search. -/
def searchPatSegs : List (List Char) :=
  [[], ['a', 'p', 'i'], ['s', 'o', 'r', 't', 'i', 'e', 's'], ['s', 'e', 'a', 'r', 'c', 'h']]

/- ================== concrete stores and payloads ================== -/

/-- A single mission-ready aircraft with zero accumulated hours. -/
def aircraft1 : AircraftRow :=
  { aircraft_id := 1, tail_number := "N761HG", total_flight_hours := 0 }

/-- A small consistent store: one aircraft, two locations, three personnel,
one user, no sorties yet. -/
def db0 : Store :=
  { aircraft := [aircraft1], locations := [1, 2], personnel := [1, 2, 3],
    users := [1], sorties := [], sortie_crew := [], sortie_passengers := [],
    sortie_cargo := [], next_sortie_id := 1 }

/-- A valid 90-minute training sortie section. -/
def sortieSec0 : SortieSection :=
  { missionType := "Training", tailNumber := 1, depLocation := 1, arrLocation := 2,
    takeoffTime := 0, landingTime := 90, comments := none }

/-- A fully valid payload: PIC only, no passengers, all-defaults cargo. -/
def payload0 : Payload :=
  { sortie := some sortieSec0
    crew := some { pic := some { name := some 1, remarks := none },
                   sic := none, oi := none, additional := none }
    passengers := some { military := none, civilian := none, contractor := none,
                         partner := none, other := none }
    cargo := some { onloadWeight := none, offloadWeight := none, description := none,
                    hazmat := none, specialHandling := none } }

/-- payload0 with the crew section entirely absent. -/
def payloadNoCrew : Payload := { payload0 with crew := none }

/-- payload0 with the cargo section entirely absent. -/
def payloadNoCargo : Payload := { payload0 with cargo := none }

/-- payload0 with landing (09:00Z) before takeoff (10:00Z), in minutes. -/
def payloadBadTimes : Payload :=
  { payload0 with sortie := some { sortieSec0 with takeoffTime := 600, landingTime := 540 } }

/-- payload0 with an invalid mission type. -/
def payloadBadMission : Payload :=
  { payload0 with sortie := some { sortieSec0 with missionType := "Bogus" } }

/-- A crew section naming personnel 2 both as PIC and as an additional entry. -/
def dupCrewSection : CrewSection :=
  { pic := some { name := some 2, remarks := none }
    sic := none
    oi := none
    additional := some [{ name := some 2, position := some "Gunner", remarks := none }] }

/-- payload0 naming personnel 2 both as PIC and as an additional entry. -/
def payloadDupCrew : Payload :=
  { payload0 with crew := some dupCrewSection }

/-- A partially populated cargo section: only the onload weight is given. -/
def partialCargo : CargoSection :=
  { onloadWeight := some 100
    offloadWeight := none
    description := none
    hazmat := none
    specialHandling := none }

/-- payload0 with a partially populated cargo section. -/
def payloadCargoPartial : Payload :=
  { payload0 with cargo := some partialCargo }

/-- A completed 2024 sortie numbered S-2024-000<i> (for i = 1..7). -/
def mkSortie2024 (i : Nat) : SortieRow :=
  { sortie_id := i, sortie_number := "S-2024-000" ++ toString i,
    mission_type := "Training", aircraft_id := 1, departure_location_id := 1,
    arrival_location_id := 2, takeoff_time := 0, landing_time := 60,
    sortie_status := "Completed", comments := none, created_by := 1 }

/-- db0 already holding sorties S-2024-0001 .. S-2024-0007. -/
def db7 : Store :=
  { db0 with
    sorties := [mkSortie2024 1, mkSortie2024 2, mkSortie2024 3, mkSortie2024 4,
                mkSortie2024 5, mkSortie2024 6, mkSortie2024 7]
    next_sortie_id := 8 }

/-- A second valid payload, used as the other racing submission. -/
def payloadB : Payload :=
  { payload0 with sortie := some { sortieSec0 with missionType := "Lift" } }

/-- The store after the first racing transaction commits its insert of
S-2024-0008 (the fallback branch is never taken). -/
def raceDb8 : Store :=
  match createSortieRest "S-2024-0008" payload0 db7 with
  | .ok (db, _) => db
  | .error _ => db7

/-- db0 holding one Planned 90-minute sortie for aircraft 1. -/
def plannedSortie : SortieRow :=
  { sortie_id := 1, sortie_number := "S-2024-0001", mission_type := "Training",
    aircraft_id := 1, departure_location_id := 1, arrival_location_id := 2,
    takeoff_time := 0, landing_time := 90, sortie_status := "Planned",
    comments := none, created_by := 1 }

/-- Store with the Planned sortie, before any status update. -/
def dbPlanned : Store :=
  { db0 with sorties := [plannedSortie], next_sortie_id := 2 }

/-- The store after UPDATEing the Planned sortie to Completed (the fallback
branch is never taken). -/
def dbCompleted : Store :=
  match updateSortieStatus 1 "Completed" dbPlanned with
  | .ok d => d
  | .error _ => dbPlanned

/-- The result of creating payload0 against db0 through the full handler. -/
def creationResult : Store × Resp := postSorties 2024 payload0 db0

/- ================== lemmas about the single INSERTs ================== -/

/-- A successful sortie INSERT assigns the next id, appends exactly the
built row, bumps the id counter, and its CHECK guarantees that takeoff is
strictly before landing. -/
theorem insertSortie_ok {db db1 : Store} {num : String} {s : SortieSection} {sid : Nat}
    (h : insertSortie db num s = .ok (db1, sid)) :
    sid = db.next_sortie_id ∧ s.takeoffTime < s.landingTime ∧
    db1 = { db with
            sorties := db.sorties ++ [sortieRowOf db.next_sortie_id num s]
            next_sortie_id := db.next_sortie_id + 1 } := by
  unfold insertSortie at h
  split_ifs at h with h1 h2 h3 h4 h5 h6 h7 h8
  simp only [Except.ok.injEq, Prod.mk.injEq] at h
  exact ⟨h.2.symm, h1, h.1.symm⟩

/-- A successful crew INSERT appends exactly the row and certifies that no
row with the same (sortie_id, personnel_id) key was already present. -/
theorem insertCrew_ok {db db2 : Store} {r : CrewRow} (h : insertCrew db r = .ok db2) :
    db2 = { db with sortie_crew := db.sortie_crew ++ [r] } ∧
    ¬ ∃ x ∈ db.sortie_crew, x.sortie_id = r.sortie_id ∧ x.personnel_id = r.personnel_id := by
  unfold insertCrew at h
  split_ifs at h with h1 h2 h3 h4 h5
  simp only [Except.ok.injEq] at h
  exact ⟨h.symm, h5⟩

/-- A successful passenger INSERT appends exactly the row. -/
theorem insertPassenger_ok {db db2 : Store} {r : PassengerRow}
    (h : insertPassenger db r = .ok db2) :
    db2 = { db with sortie_passengers := db.sortie_passengers ++ [r] } := by
  unfold insertPassenger at h
  split_ifs at h with h1 h2 h3
  simp only [Except.ok.injEq] at h
  exact h.symm

/-- A successful cargo INSERT appends exactly the row. -/
theorem insertCargo_ok {db db2 : Store} {r : CargoRow} (h : insertCargo db r = .ok db2) :
    db2 = { db with sortie_cargo := db.sortie_cargo ++ [r] } := by
  unfold insertCargo at h
  split_ifs at h with h1 h2 h3
  simp only [Except.ok.injEq] at h
  exact h.symm

/- ================== lemmas about the insert sequences ================== -/

/-- A successful run of the crew inserts appends exactly the given rows;
because every insert checks UNIQUE(sortie_id, personnel_id) against the
store as grown so far, the inserted keys are pairwise distinct and none of
them was present before the sequence started. -/
theorem insertCrewList_ok : ∀ (l : List CrewRow) (db db2 : Store),
    insertCrewList db l = .ok db2 →
    db2 = { db with sortie_crew := db.sortie_crew ++ l } ∧
    (l.map (fun r => (r.sortie_id, r.personnel_id))).Nodup ∧
    ∀ r ∈ l, ¬ ∃ x ∈ db.sortie_crew,
      x.sortie_id = r.sortie_id ∧ x.personnel_id = r.personnel_id := by
  intro l
  induction l with
  | nil =>
    intro db db2 h
    unfold insertCrewList at h
    simp only [Except.ok.injEq] at h
    subst h
    refine ⟨by simp, by simp, by simp⟩
  | cons r rest ih =>
    intro db db2 h
    unfold insertCrewList at h
    cases hc : insertCrew db r with
    | error e => rw [hc] at h; exact Except.noConfusion h
    | ok dbm =>
      rw [hc] at h
      obtain ⟨hdbm, hnew⟩ := insertCrew_ok hc
      subst hdbm
      obtain ⟨hdb2, hnodup, hnotin⟩ := ih _ _ h
      have hrmem : r ∈ db.sortie_crew ++ [r] := by simp
      refine ⟨?_, ?_, ?_⟩
      · rw [hdb2]
        simp [List.append_assoc]
      · refine List.nodup_cons.mpr ⟨?_, hnodup⟩
        intro hmem
        obtain ⟨x, hx, hpair⟩ := List.mem_map.mp hmem
        simp only [Prod.mk.injEq] at hpair
        exact hnotin x hx ⟨r, hrmem, hpair.1.symm, hpair.2.symm⟩
      · intro x hx
        rcases List.mem_cons.mp hx with hxr | hxrest
        · subst hxr; exact hnew
        · intro ⟨y, hy, hkey⟩
          exact hnotin x hxrest ⟨y, List.mem_append_left _ hy, hkey⟩

/-- A successful run of the passenger inserts appends exactly the rows. -/
theorem insertPassengerList_ok : ∀ (l : List PassengerRow) (db db2 : Store),
    insertPassengerList db l = .ok db2 →
    db2 = { db with sortie_passengers := db.sortie_passengers ++ l } := by
  intro l
  induction l with
  | nil =>
    intro db db2 h
    unfold insertPassengerList at h
    simp only [Except.ok.injEq] at h
    subst h
    simp
  | cons r rest ih =>
    intro db db2 h
    unfold insertPassengerList at h
    cases hc : insertPassenger db r with
    | error e => rw [hc] at h; exact Except.noConfusion h
    | ok dbm =>
      rw [hc] at h
      have hdbm := insertPassenger_ok hc
      subst hdbm
      rw [ih _ _ h]
      simp [List.append_assoc]

/- ================== the shape of a successful creation ================== -/

/-- Inversion of a successful transaction body: every payload section was
present, the assigned id is the store's next id, the CHECKed time order
holds, the final store is the initial one extended by exactly the sortie
row, the crew rows, the passenger rows and the single cargo row, and the
inserted crew keys are pairwise distinct. -/
theorem createSortieRest_ok {num : String} {b : Payload} {db0 dbf : Store} {sid : Nat}
    (h : createSortieRest num b db0 = .ok (dbf, sid)) :
    ∃ s c pp cg,
      b.sortie = some s ∧ b.crew = some c ∧ b.passengers = some pp ∧ b.cargo = some cg ∧
      sid = db0.next_sortie_id ∧ s.takeoffTime < s.landingTime ∧
      dbf = { db0 with
              sorties := db0.sorties ++ [sortieRowOf sid num s]
              sortie_crew := db0.sortie_crew ++ crewRowsOf sid c
              sortie_passengers := db0.sortie_passengers ++ passengerRowsOf sid pp
              sortie_cargo := db0.sortie_cargo ++ [cargoRowOf sid cg]
              next_sortie_id := db0.next_sortie_id + 1 } ∧
      ((crewRowsOf sid c).map (fun r => (r.sortie_id, r.personnel_id))).Nodup := by
  unfold createSortieRest at h
  cases hb : b.sortie with
  | none => rw [hb] at h; exact Except.noConfusion h
  | some s =>
  rw [hb] at h
  dsimp only at h
  cases hins : insertSortie db0 num s with
  | error e => rw [hins] at h; exact Except.noConfusion h
  | ok p =>
  obtain ⟨db1, sid1⟩ := p
  rw [hins] at h
  dsimp only at h
  obtain ⟨hsid1, htl, hdb1⟩ := insertSortie_ok hins
  cases hc : b.crew with
  | none => rw [hc] at h; exact Except.noConfusion h
  | some c =>
  rw [hc] at h
  dsimp only at h
  cases hcl : insertCrewList db1 (crewRowsOf sid1 c) with
  | error e => rw [hcl] at h; exact Except.noConfusion h
  | ok db2 =>
  rw [hcl] at h
  dsimp only at h
  obtain ⟨hdb2, hnodup, -⟩ := insertCrewList_ok _ _ _ hcl
  cases hp : b.passengers with
  | none => rw [hp] at h; exact Except.noConfusion h
  | some pp =>
  rw [hp] at h
  dsimp only at h
  cases hpl : insertPassengerList db2 (passengerRowsOf sid1 pp) with
  | error e => rw [hpl] at h; exact Except.noConfusion h
  | ok db3 =>
  rw [hpl] at h
  dsimp only at h
  have hdb3 := insertPassengerList_ok _ _ _ hpl
  cases hcg : b.cargo with
  | none => rw [hcg] at h; exact Except.noConfusion h
  | some cg =>
  rw [hcg] at h
  dsimp only at h
  cases hcargo : insertCargo db3 (cargoRowOf sid1 cg) with
  | error e => rw [hcargo] at h; exact Except.noConfusion h
  | ok db4 =>
  rw [hcargo] at h
  dsimp only at h
  have hdb4 := insertCargo_ok hcargo
  simp only [Except.ok.injEq, Prod.mk.injEq] at h
  obtain ⟨hdbf, hsid⟩ := h
  subst hdbf
  subst hsid
  refine ⟨s, c, pp, cg, rfl, rfl, rfl, rfl, hsid1, htl, ?_, hnodup⟩
  subst hdb4
  subst hdb3
  subst hdb2
  subst hdb1
  subst hsid1
  rfl

/-- Inversion of a successful whole transaction: the number came from
generate_sortie_number over the pre-transaction store, and the body
succeeded with it. -/
theorem createSortieTxn_ok {year : Nat} {b : Payload} {db db2 : Store} {sid : Nat}
    {num : String} (h : createSortieTxn year b db = .ok (db2, sid, num)) :
    generate_sortie_number (toString year) db.sorties = .ok num ∧
    createSortieRest num b db = .ok (db2, sid) := by
  unfold createSortieTxn at h
  cases hg : generate_sortie_number (toString year) db.sorties with
  | error e => rw [hg] at h; exact Except.noConfusion h
  | ok num2 =>
  rw [hg] at h
  dsimp only at h
  cases hr : createSortieRest num2 b db with
  | error e => rw [hr] at h; exact Except.noConfusion h
  | ok p =>
  obtain ⟨dbx, sidx⟩ := p
  rw [hr] at h
  dsimp only at h
  simp only [Except.ok.injEq, Prod.mk.injEq] at h
  obtain ⟨h1, h2, h3⟩ := h
  subst h1; subst h2; subst h3
  exact ⟨rfl, hr⟩

/-- A 201 response means the transaction body committed with that id and
number. -/
theorem postSorties_created {year : Nat} {b : Payload} {db db2 : Store} {sid : Nat}
    {num : String} (h : postSorties year b db = (db2, .created sid num)) :
    createSortieTxn year b db = .ok (db2, sid, num) := by
  unfold postSorties at h
  cases ht : createSortieTxn year b db with
  | ok p =>
    obtain ⟨dbx, sidx, numx⟩ := p
    rw [ht] at h
    dsimp only at h
    simp only [Prod.mk.injEq, Resp.created.injEq] at h
    obtain ⟨h1, h2, h3⟩ := h
    subst h1; subst h2; subst h3
    rfl
  | error e =>
    rw [ht] at h
    dsimp only at h
    simp only [Prod.mk.injEq] at h
    exact absurd h.2 (by simp)

/-- A failure response means the transaction body errored and the rollback
republished the original store. -/
theorem postSorties_failed {year : Nat} {b : Payload} {db db2 : Store} {e : Err}
    (h : postSorties year b db = (db2, .failed e)) :
    db2 = db ∧ createSortieTxn year b db = .error e := by
  unfold postSorties at h
  cases ht : createSortieTxn year b db with
  | ok p =>
    obtain ⟨dbx, sidx, numx⟩ := p
    rw [ht] at h
    dsimp only at h
    simp only [Prod.mk.injEq] at h
    exact absurd h.2 (by simp)
  | error e2 =>
    rw [ht] at h
    dsimp only at h
    simp only [Prod.mk.injEq, Resp.failed.injEq] at h
    obtain ⟨h1, h2⟩ := h
    subst h2
    exact ⟨h1.symm, rfl⟩

/-- The response is always either a commit or a rollback of the original
store: `postSorties` can be inverted through exactly one of the two
previous lemmas. -/
theorem postSorties_cases (year : Nat) (b : Payload) (db : Store) :
    (∃ db2 sid num, postSorties year b db = (db2, .created sid num)) ∨
    (∃ e, postSorties year b db = (db, .failed e)) := by
  unfold postSorties
  cases ht : createSortieTxn year b db with
  | ok p => obtain ⟨dbx, sidx, numx⟩ := p; exact .inl ⟨dbx, sidx, numx, rfl⟩
  | error e => exact .inr ⟨e, rfl⟩

/- ================== C1 ================== -/

/-- Claim C1: a sortie-creation call that fails at any step after the
transaction is opened (number generation, sortie insert, crew insert,
passenger insert, or cargo insert — i.e. any error of the transaction
body) publishes the unchanged store: no sortie row, no dependent rows and
no consumed number survive, and the response reports the failure. -/
theorem createSortie_failure_rolls_back :
    ∀ (year : Nat) (b : Payload) (db : Store) (e : Err),
      createSortieTxn year b db = .error e →
      postSorties year b db = (db, Resp.failed e) := by
  intro year b db e h
  unfold postSorties
  rw [h]

/-- Witness for C1: an invalid mission type makes the sortie INSERT fail;
the call returns the failure and the store db0 is republished unchanged. -/
theorem createSortie_failure_rolls_back_witness :
    postSorties 2024 payloadBadMission db0 =
      (db0, Resp.failed (Err.checkViolation "sorties.mission_type")) :=
  createSortie_failure_rolls_back 2024 payloadBadMission db0
    (Err.checkViolation "sorties.mission_type") rfl

/- ================== C10 ================== -/

/-- Claim C10: a payload whose crew, passengers, or cargo section is
entirely absent makes the creation call fail (the handler dereferences
each section unconditionally), the transaction is rolled back, the
response is a failure, and no rows persist. -/
theorem missing_section_fails_creation :
    ∀ (year : Nat) (b : Payload) (db : Store),
      (b.crew = none ∨ b.passengers = none ∨ b.cargo = none) →
      ∃ e, postSorties year b db = (db, Resp.failed e) := by
  intro year b db habs
  rcases postSorties_cases year b db with ⟨db2, sid, num, hok⟩ | hfail
  · obtain ⟨-, hrest⟩ := createSortieTxn_ok (postSorties_created hok)
    obtain ⟨s, c, pp, cg, -, hc, hp, hcg, -⟩ := createSortieRest_ok hrest
    rcases habs with h | h | h
    · rw [h] at hc; exact Option.noConfusion hc
    · rw [h] at hp; exact Option.noConfusion hp
    · rw [h] at hcg; exact Option.noConfusion hcg
  · exact hfail

/-- Witness for C10: the payload with no crew section fails and leaves db0
unchanged (the concrete error is the TypeError on the crew dereference). -/
theorem missing_section_fails_creation_witness :
    ∃ e, postSorties 2024 payloadNoCrew db0 = (db0, Resp.failed e) :=
  missing_section_fails_creation 2024 payloadNoCrew db0 (Or.inl rfl)

/- ================== C5 ================== -/

/-- Claim C5: a creation payload whose landing time is not strictly after
its takeoff time is rejected — the call fails and no row of any kind is
written (the published store is unchanged). -/
theorem landing_not_after_takeoff_rejected :
    ∀ (year : Nat) (b : Payload) (db : Store) (s : SortieSection),
      b.sortie = some s → s.landingTime ≤ s.takeoffTime →
      ∃ e, postSorties year b db = (db, Resp.failed e) := by
  intro year b db s hs hle
  rcases postSorties_cases year b db with ⟨db2, sid, num, hok⟩ | hfail
  · obtain ⟨-, hrest⟩ := createSortieTxn_ok (postSorties_created hok)
    obtain ⟨s2, c, pp, cg, hs2, -, -, -, -, htl, -⟩ := createSortieRest_ok hrest
    rw [hs] at hs2
    obtain rfl := (Option.some.injEq _ _ ▸ hs2)
    exact absurd htl (not_lt.mpr hle)
  · exact hfail

/-- Witness for C5: takeoff 2024-01-01T10:00Z, landing 2024-01-01T09:00Z
(600 and 540 minutes into the day) is rejected and db0 stays unchanged. -/
theorem landing_not_after_takeoff_rejected_witness :
    ∃ e, postSorties 2024 payloadBadTimes db0 = (db0, Resp.failed e) :=
  landing_not_after_takeoff_rejected 2024 payloadBadTimes db0
    { sortieSec0 with takeoffTime := 600, landingTime := 540 } rfl (by norm_num)

/- ================== crew rows of the payload ================== -/

/-- Every row a fixed crew slot produces belongs to the given sortie. -/
theorem slotRow_sortie_id (sid : Nat) (pos : String) (sl : Option CrewSlot) :
    ∀ r ∈ slotRow sid pos sl, r.sortie_id = sid := by
  intro r hr
  cases sl with
  | none => simp [slotRow] at hr
  | some x =>
    cases hx : x.name with
    | none => simp [slotRow, hx] at hr
    | some pid =>
      simp [slotRow, hx] at hr
      subst hr
      rfl

/-- Every row the additional-crew loop produces belongs to the sortie. -/
theorem additionalRows_sortie_id (sid : Nat) (l : List AdditionalCrew) :
    ∀ r ∈ additionalRows sid l, r.sortie_id = sid := by
  intro r hr
  unfold additionalRows at hr
  obtain ⟨m, hm, hmap⟩ := List.mem_filterMap.mp hr
  cases hn : m.name with
  | none => rw [hn] at hmap; exact Option.noConfusion hmap
  | some pid =>
    rw [hn] at hmap
    simp only [Option.map_some'] at hmap
    obtain rfl := Option.some.inj hmap
    rfl

/-- Every crew row the handler inserts belongs to the created sortie. -/
theorem crewRowsOf_sortie_id (sid : Nat) (c : CrewSection) :
    ∀ r ∈ crewRowsOf sid c, r.sortie_id = sid := by
  intro r hr
  unfold crewRowsOf at hr
  simp only [List.mem_append] at hr
  rcases hr with ((h | h) | h) | h
  · exact slotRow_sortie_id _ _ _ _ h
  · exact slotRow_sortie_id _ _ _ _ h
  · exact slotRow_sortie_id _ _ _ _ h
  · cases ha : c.additional with
    | none => rw [ha] at h; simp at h
    | some l =>
      rw [ha] at h
      dsimp only at h
      by_cases hl : 0 < l.length
      · rw [if_pos hl] at h
        exact additionalRows_sortie_id _ _ _ h
      · rw [if_neg hl] at h
        simp at h

/-- A fixed slot's inserted personnel ids are exactly the slot's named id. -/
theorem slotRow_map_pid (sid : Nat) (pos : String) (sl : Option CrewSlot) :
    (slotRow sid pos sl).map (fun r => r.personnel_id) = slotIds sl := by
  cases sl with
  | none => rfl
  | some x =>
    cases hx : x.name with
    | none => simp [slotRow, slotIds, hx]
    | some pid => simp [slotRow, slotIds, hx]

/-- The additional rows' personnel ids are exactly the named ids. -/
theorem additionalRows_map_pid (sid : Nat) (l : List AdditionalCrew) :
    (additionalRows sid l).map (fun r => r.personnel_id) =
      l.filterMap (fun m => m.name) := by
  unfold additionalRows
  rw [List.map_filterMap]
  congr 1
  funext m
  cases hm : m.name <;> rfl

/-- The personnel ids of the inserted crew rows are exactly the ids the
payload names, in order. -/
theorem crewRowsOf_map_pid (sid : Nat) (c : CrewSection) :
    (crewRowsOf sid c).map (fun r => r.personnel_id) = crewNamedIds c := by
  unfold crewRowsOf crewNamedIds
  cases ha : c.additional with
  | none =>
    simp only [List.map_append, slotRow_map_pid, List.map_nil]
  | some l =>
    by_cases hl : 0 < l.length
    · simp only [List.map_append, slotRow_map_pid, if_pos hl, additionalRows_map_pid]
    · simp only [List.map_append, slotRow_map_pid, if_neg hl, List.map_nil]

/-- For rows that all belong to one sortie, distinct (sortie, personnel)
keys give distinct personnel ids. -/
theorem nodup_pid_of_nodup_key : ∀ (l : List CrewRow) (sid : Nat),
    (∀ r ∈ l, r.sortie_id = sid) →
    (l.map (fun r => (r.sortie_id, r.personnel_id))).Nodup →
    (l.map (fun r => r.personnel_id)).Nodup := by
  intro l sid
  induction l with
  | nil => intro _ _; simp
  | cons r rest ih =>
    intro hsid hnd
    simp only [List.map_cons, List.nodup_cons] at hnd ⊢
    obtain ⟨hnotin, hrest⟩ := hnd
    refine ⟨?_, ih (fun x hx => hsid x (List.mem_cons_of_mem _ hx)) hrest⟩
    intro hmem
    obtain ⟨x, hx, hpx⟩ := List.mem_map.mp hmem
    apply hnotin
    refine List.mem_map.mpr ⟨x, hx, ?_⟩
    rw [show x.sortie_id = sid from hsid x (List.mem_cons_of_mem _ hx),
        show r.sortie_id = sid from hsid r (List.mem_cons_self _ _), hpx]

/- ================== C6 ================== -/

/-- Claim C6: a creation payload that names the same personnel identifier
in two crew slots is rejected — the whole creation fails and nothing is
persisted — because every crew insert checks UNIQUE(sortie_id,
personnel_id) against the rows inserted so far. -/
theorem duplicate_crew_member_rejected :
    ∀ (year : Nat) (b : Payload) (db : Store) (c : CrewSection),
      b.crew = some c → ¬ (crewNamedIds c).Nodup →
      ∃ e, postSorties year b db = (db, Resp.failed e) := by
  intro year b db c hc hdup
  rcases postSorties_cases year b db with ⟨db2, sid, num, hok⟩ | hfail
  · obtain ⟨-, hrest⟩ := createSortieTxn_ok (postSorties_created hok)
    obtain ⟨s, c2, pp, cg, -, hc2, -, -, -, -, -, hnodup⟩ := createSortieRest_ok hrest
    rw [hc] at hc2
    obtain rfl : c = c2 := Option.some.inj hc2
    have hpid := nodup_pid_of_nodup_key _ sid (crewRowsOf_sortie_id sid c) hnodup
    rw [crewRowsOf_map_pid] at hpid
    exact absurd hpid hdup
  · exact hfail

/-- Witness for C6: naming personnel 2 both as PIC and as an additional
crew entry fails and leaves db0 unchanged. -/
theorem duplicate_crew_member_rejected_witness :
    ∃ e, postSorties 2024 payloadDupCrew db0 = (db0, Resp.failed e) :=
  duplicate_crew_member_rejected 2024 payloadDupCrew db0 dupCrewSection rfl (by decide)

/- ================== C7 ================== -/

/-- Counterexample to C7 as stated: a payload with no cargo section does
not succeed with an all-defaults cargo row — the handler's unconditional
cargo dereference throws, the transaction rolls back, and the unchanged
store (with no cargo row at all) is republished. -/
theorem absent_cargo_section_fails :
    postSorties 2024 payloadNoCargo db0 = (db0, Resp.failed (Err.jsTypeError "cargo")) := rfl

/-- Claim C7 (amended): every successful creation inserts exactly one
cargo row for the new sortie, with the handler's 0/0/false defaults for
fields missing from the (present) cargo section; a payload whose cargo
section is absent fails with nothing persisted instead of succeeding. -/
theorem cargo_row_defaults :
    (∀ (year : Nat) (b : Payload) (db db2 : Store) (sid : Nat) (num : String),
      postSorties year b db = (db2, Resp.created sid num) →
      ∃ cg, b.cargo = some cg ∧
        db2.sortie_cargo = db.sortie_cargo ++ [cargoRowOf sid cg]) ∧
    (∀ (year : Nat) (b : Payload) (db : Store),
      b.cargo = none → ∃ e, postSorties year b db = (db, Resp.failed e)) := by
  constructor
  · intro year b db db2 sid num h
    obtain ⟨-, hrest⟩ := createSortieTxn_ok (postSorties_created h)
    obtain ⟨s, c, pp, cg, -, -, -, hcg, -, -, hdb2, -⟩ := createSortieRest_ok hrest
    exact ⟨cg, hcg, by rw [hdb2]⟩
  · intro year b db hnone
    rcases postSorties_cases year b db with ⟨db2, sid, num, hok⟩ | hfail
    · obtain ⟨-, hrest⟩ := createSortieTxn_ok (postSorties_created hok)
      obtain ⟨s, c, pp, cg, -, -, -, hcg, -⟩ := createSortieRest_ok hrest
      rw [hnone] at hcg
      exact Option.noConfusion hcg
    · exact hfail

/-- Witness for C7 (amended): a cargo section carrying only an onload
weight yields exactly one cargo row with the other fields defaulted. -/
theorem cargo_row_defaults_witness :
    ∃ cg, payloadCargoPartial.cargo = some cg ∧
      (postSorties 2024 payloadCargoPartial db0).1.sortie_cargo =
        db0.sortie_cargo ++ [cargoRowOf 1 cg] :=
  cargo_row_defaults.1 2024 payloadCargoPartial db0
    (postSorties 2024 payloadCargoPartial db0).1 1 "S-2024-0001" rfl

/- ================== C8 ================== -/

/-- Claim C8: a sortie created through the creation path is inserted with
status 'Completed' and the freshly generated sortie number; a success
response carries exactly the committed row's id and number, and a failure
response carries no number and republishes the unchanged store, so the
assigned number is never exposed without a commit. -/
theorem created_sortie_completed_with_number :
    (∀ (year : Nat) (b : Payload) (db db2 : Store) (sid : Nat) (num : String),
      postSorties year b db = (db2, Resp.created sid num) →
      generate_sortie_number (toString year) db.sorties = .ok num ∧
      ∃ s, b.sortie = some s ∧
        db2.sorties = db.sorties ++ [sortieRowOf sid num s] ∧
        (sortieRowOf sid num s).sortie_status = "Completed" ∧
        (sortieRowOf sid num s).sortie_number = num ∧
        (sortieRowOf sid num s).sortie_id = sid) ∧
    (∀ (year : Nat) (b : Payload) (db db2 : Store) (e : Err),
      postSorties year b db = (db2, Resp.failed e) → db2 = db) := by
  constructor
  · intro year b db db2 sid num h
    obtain ⟨hgen, hrest⟩ := createSortieTxn_ok (postSorties_created h)
    obtain ⟨s, c, pp, cg, hs, -, -, -, -, -, hdb2, -⟩ := createSortieRest_ok hrest
    exact ⟨hgen, s, hs, by rw [hdb2], rfl, rfl, rfl⟩
  · intro year b db db2 e h
    exact (postSorties_failed h).1

/-- Witness for C8: the successful creation of payload0 against db0
commits one row with status 'Completed' and number S-2024-0001, and the
response carries exactly that id and number. -/
theorem created_sortie_completed_with_number_witness :
    generate_sortie_number (toString 2024) db0.sorties = .ok "S-2024-0001" ∧
    ∃ s, payload0.sortie = some s ∧
      (postSorties 2024 payload0 db0).1.sorties =
        db0.sorties ++ [sortieRowOf 1 "S-2024-0001" s] ∧
      (sortieRowOf 1 "S-2024-0001" s).sortie_status = "Completed" ∧
      (sortieRowOf 1 "S-2024-0001" s).sortie_number = "S-2024-0001" ∧
      (sortieRowOf 1 "S-2024-0001" s).sortie_id = 1 :=
  created_sortie_completed_with_number.1 2024 payload0 db0
    (postSorties 2024 payload0 db0).1 1 "S-2024-0001" rfl

/- ================== C3 ================== -/

/-- The flight-hours trigger never touches the sorties table. -/
theorem update_aircraft_flight_hours_sorties (o : String) (n : SortieRow) (d : Store) :
    (update_aircraft_flight_hours o n d).sorties = d.sorties := by
  unfold update_aircraft_flight_hours
  split <;> rfl

/-- Counterexample to C3's creation-path sentence: a sortie created
through POST /api/sorties comes into existence with status 'Completed'
and a 90-minute duration, yet the owning aircraft's total_flight_hours
accumulator is left at its prior value 0 (not incremented by 1.5): the
trigger fires AFTER UPDATE only, and an INSERT never runs it. -/
theorem creation_path_does_not_accrue_hours :
    creationResult.2 = Resp.created 1 "S-2024-0001" ∧
    creationResult.1.sorties.map (fun s => (s.sortie_status, flightDurationMinutes s)) =
      [("Completed", 90)] ∧
    creationResult.1.aircraft = db0.aircraft ∧
    aircraft1.total_flight_hours = 0 := by decide

/-- Claim C3 (amended): when an UPDATE moves a sortie's status to
'Completed', the owning aircraft's accumulator is incremented by exactly
flight_duration_minutes / 60 in the same atomic operation as the status
change, and exactly once; re-saving an already-Completed sortie leaves
the accumulator unchanged.  (Sorties created through the creation path
are inserted as 'Completed' and never undergo such an UPDATE transition,
so the increment never fires for them.) -/
theorem update_to_completed_accrues_hours :
    ∀ (db : Store) (sid : Nat) (row : SortieRow) (db2 : Store),
      db.sorties.filter (fun s => s.sortie_id == sid) = [row] →
      updateSortieStatus sid "Completed" db = .ok db2 →
      (row.sortie_status ≠ "Completed" →
        db2.aircraft = db.aircraft.map (fun a =>
          if a.aircraft_id = row.aircraft_id then
            { a with total_flight_hours :=
                a.total_flight_hours + (flightDurationMinutes row : Rat) / 60 }
          else a)) ∧
      (row.sortie_status = "Completed" → db2.aircraft = db.aircraft) ∧
      db2.sorties = db.sorties.map (fun s =>
        if s.sortie_id = sid then { s with sortie_status := "Completed" } else s) := by
  intro db sid row db2 hfilter h
  unfold updateSortieStatus at h
  rw [if_neg (by decide)] at h
  simp only [hfilter] at h
  by_cases hex : ∃ s ∈ [row], ¬ (s.takeoff_time < s.landing_time)
  · rw [if_pos hex] at h
    exact Except.noConfusion h
  · rw [if_neg hex] at h
    simp only [Except.ok.injEq] at h
    subst h
    simp only [List.foldl_cons, List.foldl_nil]
    refine ⟨?_, ?_, ?_⟩
    · intro hne
      unfold update_aircraft_flight_hours
      rw [if_pos ⟨rfl, hne⟩]
      rfl
    · intro heq
      unfold update_aircraft_flight_hours
      rw [if_neg (fun hcon => hcon.2 heq)]
    · rw [update_aircraft_flight_hours_sorties]

/-- Witness for C3 (amended): UPDATEing the Planned 90-minute sortie of
dbPlanned to Completed increments the aircraft's accumulator by exactly
90/60 = 1.5 hours. -/
theorem update_to_completed_accrues_hours_witness :
    dbPlanned.sorties.filter (fun s => s.sortie_id == 1) = [plannedSortie] ∧
    dbCompleted.aircraft = dbPlanned.aircraft.map (fun a =>
      if a.aircraft_id = plannedSortie.aircraft_id then
        { a with total_flight_hours :=
            a.total_flight_hours + (flightDurationMinutes plannedSortie : Rat) / 60 }
      else a) ∧
    dbCompleted.aircraft =
      [{ aircraft_id := 1, tail_number := "N761HG", total_flight_hours := 3 / 2 }] := by
  have h := update_to_completed_accrues_hours dbPlanned 1 plannedSortie dbCompleted
    (by decide) rfl
  have h1 := h.1 (by decide)
  refine ⟨by decide, h1, ?_⟩
  rw [h1]
  norm_num [dbPlanned, db0, aircraft1, plannedSortie, flightDurationMinutes]

/- ================== C2 ================== -/

/-- When every row's suffix casts, the SQL MAX aggregation succeeds and
computes the maximum of the parsed suffixes. -/
theorem maxSeqAux_ok : ∀ (l : List SortieRow) (a : Nat),
    (∀ s ∈ l, (parseNat? (seqSuffix s.sortie_number)).isSome = true) →
    maxSeqAux a l =
      .ok (max a ((l.filterMap (fun s => parseNat? (seqSuffix s.sortie_number))).foldr max 0)) := by
  intro l
  induction l with
  | nil => intro a _; simp [maxSeqAux]
  | cons s rest ih =>
    intro a hall
    have hs := hall s (List.mem_cons_self _ _)
    obtain ⟨n, hn⟩ := Option.isSome_iff_exists.mp hs
    unfold maxSeqAux
    rw [hn]
    dsimp only
    rw [ih (max a n) (fun x hx => hall x (List.mem_cons_of_mem _ hx))]
    simp only [List.filterMap_cons, hn, List.foldr_cons]
    rw [Nat.max_assoc]

/-- Claim C2: for a store whose year-matching sortie numbers all carry a
castable suffix, generate_sortie_number returns 'S-<year>-' followed by
the LPAD of (maximum existing sequence number for the year) + 1, and
'S-<year>-0001' when no sortie exists for the year. -/
theorem generate_sortie_number_spec :
    ∀ (year : String) (sorties : List SortieRow),
      (∀ s ∈ sorties, likeYear year s.sortie_number = true →
        (parseNat? (seqSuffix s.sortie_number)).isSome = true) →
      generate_sortie_number year sorties =
        .ok ("S-" ++ year ++ "-" ++ lpad (toString (claimMaxSeq year sorties + 1)) 4 '0') ∧
      (sorties.filter (fun s => likeYear year s.sortie_number) = [] →
        generate_sortie_number year sorties = .ok ("S-" ++ year ++ "-" ++ "0001")) := by
  intro year sorties hall
  have hflt : ∀ s ∈ sorties.filter (fun s => likeYear year s.sortie_number),
      (parseNat? (seqSuffix s.sortie_number)).isSome = true := by
    intro s hs
    obtain ⟨hmem, hlike⟩ := List.mem_filter.mp hs
    exact hall s hmem hlike
  constructor
  · unfold generate_sortie_number
    rw [maxSeqAux_ok _ 0 hflt]
    dsimp only
    rw [Nat.zero_max]
    rfl
  · intro hempty
    unfold generate_sortie_number
    rw [hempty]
    rfl

/-- Witness for C2: with S-2024-0001 .. S-2024-0007 in store, the maximum
2024 sequence number is 7 and the generator assigns exactly S-2024-0008;
with no 2025 sorties, the first 2025 number is exactly S-2025-0001. -/
theorem generate_sortie_number_spec_witness :
    generate_sortie_number "2024" db7.sorties =
      .ok ("S-" ++ "2024" ++ "-" ++ lpad (toString (claimMaxSeq "2024" db7.sorties + 1)) 4 '0') ∧
    generate_sortie_number "2024" db7.sorties = .ok "S-2024-0008" ∧
    claimMaxSeq "2024" db7.sorties = 7 ∧
    generate_sortie_number "2025" db7.sorties = .ok "S-2025-0001" := by
  refine ⟨(generate_sortie_number_spec "2024" db7.sorties (by decide)).1, rfl, by decide, ?_⟩
  have h := (generate_sortie_number_spec "2025" db7.sorties (by decide)).2 (by decide)
  exact h.trans (congrArg Except.ok (by decide))

/- ================== C4 ================== -/

/-- Claim C4 (refuted by the code; the spec's requirement is right): the
naive max+1 derivation is not race-safe.  Two concurrent submissions that
both run generate_sortie_number against the shared pre-commit snapshot
db7 both obtain S-2024-0008; the first transaction's body commits it, and
the second transaction's insert of its identically derived number then
hits the UNIQUE constraint on sortie_number — the two concurrent calls
cannot both succeed with distinct numbers. -/
theorem sortie_number_generation_race :
    generate_sortie_number "2024" db7.sorties = .ok "S-2024-0008" ∧
    createSortieRest "S-2024-0008" payload0 db7 = .ok (raceDb8, 8) ∧
    createSortieRest "S-2024-0008" payloadB raceDb8 =
      .error (Err.uniqueViolation "sorties.sortie_number") :=
  ⟨rfl, rfl, rfl⟩

/- ================== C9 ================== -/

/-- A path that matches the all-literal search pattern has exactly its
segments. -/
theorem segsMatch_search_inv : ∀ segs, segsMatch searchPatSegs segs = true →
    segs = searchPatSegs := by
  intro segs h
  rcases segs with _ | ⟨s0, _ | ⟨s1, _ | ⟨s2, _ | ⟨s3, _ | ⟨s4, rest⟩⟩⟩⟩⟩
  · simp [searchPatSegs, segsMatch] at h
  · simp [searchPatSegs, segsMatch] at h
  · simp [searchPatSegs, segsMatch] at h
  · simp [searchPatSegs, segsMatch] at h
  · have h' : (([] : List Char) == s0 && (['a', 'p', 'i'] == s1 &&
        (['s', 'o', 'r', 't', 'i', 'e', 's'] == s2 &&
          (['s', 'e', 'a', 'r', 'c', 'h'] == s3 && true)))) = true := h
    simp only [Bool.and_eq_true, beq_iff_eq, and_true] at h'
    obtain ⟨h0, h1, h2, h3⟩ := h'
    subst h0; subst h1; subst h2; subst h3
    rfl
  · simp [searchPatSegs, segsMatch, segMatches, isParamSeg] at h

/-- Any path the search pattern matches is dispatched to the earlier
GET /api/sorties/:id route, with the parameter id bound to "search". -/
theorem dispatch_search_path (path : String)
    (h : pathMatches "/api/sorties/search" path = true) :
    dispatch "GET" path = some (RouteTag.sortieById, [("id", "search")]) := by
  unfold pathMatches at h
  have hsegs := segsMatch_search_inv _ h
  simp only [dispatch, pathMatches, hsegs]
  decide

/-- No GET request is ever dispatched to the search route: every path its
pattern accepts is captured by the earlier :id route. -/
theorem dispatch_not_search (path : String) (tag : RouteTag)
    (ps : List (String × String)) (h : dispatch "GET" path = some (tag, ps)) :
    tag ≠ RouteTag.sortieSearch := by
  intro htag
  subst htag
  by_cases hm : pathMatches "/api/sorties/search" path = true
  · have h2 := dispatch_search_path path hm
    rw [h] at h2
    simp at h2
  · unfold dispatch at h
    obtain ⟨r, hfind, hr⟩ := Option.map_eq_some'.mp h
    have hpred := List.find?_some hfind
    have hmem := List.mem_of_find?_eq_some hfind
    have htag2 : r.2.2 = RouteTag.sortieSearch := by
      have := congrArg Prod.fst hr
      simpa using this
    fin_cases hmem <;> simp_all

/-- Claim C9: GET /api/sorties/search is unreachable.  The request path
/api/sorties/search is dispatched to the earlier GET /api/sorties/:id
route with id = "search"; more generally every path the search pattern
accepts goes to the :id route, no dispatched GET request ever reaches the
search handler, and the by-id handler run with id = "search" fails the
integer cast, so it cannot match any sortie row. -/
theorem search_route_shadowed :
    dispatch "GET" "/api/sorties/search" = some (RouteTag.sortieById, [("id", "search")]) ∧
    (∀ path : String, pathMatches "/api/sorties/search" path = true →
      dispatch "GET" path = some (RouteTag.sortieById, [("id", "search")])) ∧
    (∀ (path : String) (tag : RouteTag) (ps : List (String × String)),
      dispatch "GET" path = some (tag, ps) → tag ≠ RouteTag.sortieSearch) ∧
    (∀ db : Store, getSortieById "search" db = .error (Err.invalidCast "search")) :=
  ⟨by decide, dispatch_search_path, dispatch_not_search, fun _ => rfl⟩

/-- Witness for C9: the concrete request GET /api/sorties/search lands on
the by-id route, which is not the search route. -/
theorem search_route_shadowed_witness :
    dispatch "GET" "/api/sorties/search" = some (RouteTag.sortieById, [("id", "search")]) ∧
    RouteTag.sortieById ≠ RouteTag.sortieSearch :=
  ⟨search_route_shadowed.1,
   search_route_shadowed.2.2.1 "/api/sorties/search" RouteTag.sortieById
     [("id", "search")] search_route_shadowed.1⟩
